import Mathlib

/-!
Shallow embedding of `config/chassis_modules.py` (sonic-utilities):
the smartswitch chassis-module state-transition guard, the fabric-link
reconciler, and their store model.

The CHASSIS_MODULE config table is modelled as a function from module
name to a field map (`Dict`, an association list mirroring a Python
dict); the empty map stands for an absent record, matching ConfigDB
`get_entry` which returns `{}` for a missing key.  Wall-clock time,
`datetime.utcnow()`, `datetime.fromisoformat` and `isoformat` are
abstracted into an `Env` record: `now` is the current instant (seconds),
`fromisoformat` is the partial ISO-8601 parser (`none` models a raised
`ValueError`), and `isoformat` renders an instant.  A Python expression
that can raise (`fvs['admin_status']`, `re.search(...).group()`) is
embedded as an `Option`, with `none` for the raised exception.
-/

namespace ChassisModules

/-- A Python dict of string fields, as an association list (first match wins). -/
abbrev Dict := List (String × String)

/-- The CHASSIS_MODULE table: module name to field map; `[]` means the record
is absent (ConfigDB returns `{}` for a missing entry). -/
abbrev Store := String → Dict

/-- Python `d.get(k)` / `d[k]`: first value bound to `k`, `none` if absent. -/
def dget : Dict → String → Option String
  | [], _ => none
  | (k', v) :: t, k => if k' = k then some v else dget t k

/-- Python `d[k] = v`: replace the first binding of `k`, or append one. -/
def dset : Dict → String → String → Dict
  | [], k, v => [(k, v)]
  | (k', v') :: t, k, v =>
      if k' = k then (k, v) :: t else (k', v') :: dset t k v

/-- Python `d.pop(k, None)`: remove the binding of `k` (keys are unique in a
Python dict, so removing every occurrence is the same operation). -/
def dpop : Dict → String → Dict
  | [], _ => []
  | (k', v) :: t, k => if k' = k then dpop t k else (k', v) :: dpop t k

/-- Ambient facts the Python code reads from the platform and the clock:
`is_smartswitch()`, `datetime.utcnow()` (as `now`, in seconds), and the
ISO-8601 timestamp codec. -/
structure Env where
  is_smartswitch : Bool
  now : Int
  fromisoformat : String → Option Int
  isoformat : Int → String

/-- Source `TIMEOUT_SECS = 10` (generic poll budget, seconds = iterations). -/
def TIMEOUT_SECS : Nat := 10

/-- Source `TRANSITION_TIMEOUT = timedelta(seconds=240)` (4 minutes), in seconds. -/
def TRANSITION_TIMEOUT : Int := 240

/-- Source `config_db.set_entry('CHASSIS_MODULE', name, d)`; `d = []` models
`set_entry(..., None)`, which deletes the record. -/
def set_entry (store : Store) (name : String) (d : Dict) : Store :=
  fun n => if n = name then d else store n

/-- Source `get_config_module_state`: platform default when the record is absent,
otherwise `fvs['admin_status']` — `none` models the `KeyError` raised when a
non-empty record lacks the field. -/
def get_config_module_state (env : Env) (store : Store) (name : String) :
    Option String :=
  let fvs := store name
  if fvs.isEmpty then
    some (if env.is_smartswitch then "down" else "up")
  else
    dget fvs "admin_status"

/-- Source `get_state_transition_in_progress`: the flag field, defaulting to
`'False'` when the record or the field is absent. -/
def get_state_transition_in_progress (store : Store) (name : String) : String :=
  let fvs := store name
  if fvs.isEmpty then "False"
  else (dget fvs "state_transition_in_progress").getD "False"

/-- Source `set_state_transition_in_progress`: read-modify-write of the record;
sets the flag, and pairs `transition_start_time` with it (fresh
`utcnow().isoformat()` when the flag is `'True'`, popped otherwise).
Returns the dict that is written back with `set_entry`. -/
def set_state_transition_in_progress (env : Env) (store : Store)
    (name value : String) : Dict :=
  let entry := store name
  let entry := dset entry "state_transition_in_progress" value
  if value = "True" then
    dset entry "transition_start_time" (env.isoformat env.now)
  else
    dpop entry "transition_start_time"

/-- Source `is_transition_timed_out`: returns `False` on an absent record, an absent or
falsy (empty) `transition_start_time`, or a string `fromisoformat` rejects
(the caught `ValueError`); otherwise `utcnow() - start > TRANSITION_TIMEOUT`. -/
def is_transition_timed_out (env : Env) (store : Store) (name : String) : Bool :=
  let fvs := store name
  if fvs.isEmpty then false
  else
    match dget fvs "transition_start_time" with
    | none => false
    | some s =>
        if s = "" then false
        else
          match env.fromisoformat s with
          | none => false
          | some start => decide (env.now - start > TRANSITION_TIMEOUT)

/-- Outcome of a `shutdown`/`startup` command invocation, as far as the
CHASSIS_MODULE table is concerned. -/
inductive CmdResult where
  /-- Validation failure, `ctx.fail`, on a module name without a recognized prefix. -/
  | badName : CmdResult
  /-- An "already in ... state" early return. -/
  | alreadyInState : CmdResult
  /-- A "state transition is already in progress" early return. -/
  | inProgress : CmdResult
  /-- A lookup `fvs['admin_status']` raised `KeyError`. -/
  | keyError : CmdResult
  /-- Reached the admin-state write; `staleCleared` records whether a timed-out
  transition flag was cleared first. -/
  | proceeded (staleCleared : Bool) : CmdResult
  deriving DecidableEq, Repr

/-- A command's effect on the CHASSIS_MODULE table: the result it reports and
the sequence of `set_entry` writes it performed, in order.  The fabric tail of
the commands (`check_config_module_state_with_timeout`,
`fabric_module_set_admin_status`, modelled below) only reads this table and
writes CHASSIS_STATE_DB, so it contributes no entry here. -/
structure GuardOutcome where
  result : CmdResult
  writes : List (String × Dict)
  deriving DecidableEq, Repr

/-- Replay a write trace against a store. -/
def applyWrites (ws : List (String × Dict)) (store : Store) : Store :=
  ws.foldl (fun s w => set_entry s w.1 w.2) store

/-- Python `s.startswith(p)`: `p`'s characters are a prefix of `s`'s. -/
def strStartsWith (s p : String) : Bool := p.data.isPrefixOf s.data

/-- Source `chassis_module_name.startswith(("SUPERVISOR", "LINE-CARD",
"FABRIC-CARD", "DPU"))`. -/
def validModuleNameTag (name : String) : Bool :=
  strStartsWith name "SUPERVISOR" || strStartsWith name "LINE-CARD" ||
    strStartsWith name "FABRIC-CARD" || strStartsWith name "DPU"

/-- The record both commands write on the smartswitch path:
`{'admin_status': target, 'state_transition_in_progress': 'True',
'transition_start_time': datetime.utcnow().isoformat()}`. -/
def transitionWriteEntry (env : Env) (target : String) : Dict :=
  [("admin_status", target),
   ("state_transition_in_progress", "True"),
   ("transition_start_time", env.isoformat env.now)]

/-- The smartswitch block shared verbatim by `shutdown_chassis_module` and
`startup_chassis_module` (with `target` `'down'` resp. `'up'`): reject while a
live transition is in progress, clear a timed-out one and fall through, then
replace the record with `transitionWriteEntry`. -/
def smartswitchGuardWrites (env : Env) (store : Store) (name target : String) :
    GuardOutcome :=
  if get_state_transition_in_progress store name = "True" then
    if is_transition_timed_out env store name then
      ⟨.proceeded true,
       [(name, set_state_transition_in_progress env store name "False"),
        (name, transitionWriteEntry env target)]⟩
    else
      ⟨.inProgress, []⟩
  else
    ⟨.proceeded false, [(name, transitionWriteEntry env target)]⟩

/-- Source `shutdown_chassis_module`: prefix validation, already-down early return,
then the smartswitch guard block or the plain non-smartswitch
`{'admin_status': 'down'}` write. -/
def shutdown_chassis_module (env : Env) (store : Store) (name : String) :
    GuardOutcome :=
  if ¬ validModuleNameTag name then ⟨.badName, []⟩
  else
    match get_config_module_state env store name with
    | none => ⟨.keyError, []⟩
    | some cur =>
        if cur = "down" then ⟨.alreadyInState, []⟩
        else if env.is_smartswitch then
          smartswitchGuardWrites env store name "down"
        else
          ⟨.proceeded false, [(name, [("admin_status", "down")])]⟩

/-- Source `startup_chassis_module`: no prefix validation in the source; already-up
early return, then the smartswitch guard block or the non-smartswitch
`set_entry(..., None)` record deletion. -/
def startup_chassis_module (env : Env) (store : Store) (name : String) :
    GuardOutcome :=
  match get_config_module_state env store name with
  | none => ⟨.keyError, []⟩
  | some cur =>
      if cur = "up" then ⟨.alreadyInState, []⟩
      else if env.is_smartswitch then
        smartswitchGuardWrites env store name "up"
      else
        ⟨.proceeded false, [(name, [])]⟩

/-- Result of `check_config_module_state_with_timeout`. -/
inductive PollResult where
  /-- The loop condition matched at read index `polls` (after `polls` one-second
  sleeps) and the function returned `False` (not timed out). -/
  | matched (polls : Nat) : PollResult
  /-- Counter reached `TIMEOUT_SECS`: `ctx.fail(...)` raised, a fatal
  timeout. -/
  | timedOut : PollResult
  /-- A poll's `get_config_module_state` raised `KeyError`. -/
  | crashed : PollResult
  deriving DecidableEq, Repr

/-- The `while get_config_module_state(...) != state` loop, over the stream of
observations `obs` (the state as read at each iteration): read index `i`, with
`fuel` further mismatches allowed before `counter >= TIMEOUT_SECS` fires. -/
def pollFrom (obs : Nat → Option String) (state : String) :
    Nat → Nat → PollResult
  | i, 0 =>
      match obs i with
      | none => .crashed
      | some s => if s = state then .matched i else .timedOut
  | i, Nat.succ f =>
      match obs i with
      | none => .crashed
      | some s =>
          if s = state then .matched i else pollFrom obs state (i + 1) f

/-- Source `check_config_module_state_with_timeout`: polls
`get_config_module_state` once per second against the (externally evolving)
store, starting with `counter = 0`; after `TIMEOUT_SECS` consecutive
mismatches `ctx.fail` raises. -/
def check_config_module_state_with_timeout (env : Env) (stores : Nat → Store)
    (name state : String) : PollResult :=
  pollFrom (fun k => get_config_module_state env (stores k) name) state 0
    (TIMEOUT_SECS - 1)

/-- The call site `if not check_config_module_state_with_timeout(...):
fabric_module_set_admin_status(...)`: the reconciler runs only when the poll
returned `False`; on `ctx.fail` (timeout) the command aborts first. -/
def fabricGateRuns : PollResult → Bool
  | .matched _ => true
  | .timedOut => false
  | .crashed => false

/-- Python `int(...)` on a non-empty digit string, as a fold over its characters. -/
def digitsToNat (ds : List Char) : Nat :=
  ds.foldl (fun n c => 10 * n + (c.toNat - 48)) 0

/-- Source `int(re.search(r"(\d+)$", s).group())`: the maximal run of digits at the
end of `s`, `none` when there is none (the `AttributeError` from
`.group()` on a failed search). -/
def trailingNumber (s : String) : Option Nat :=
  let ds := (s.data.reverse.takeWhile Char.isDigit).reverse
  if ds.isEmpty then none else some (digitsToNat ds)

/-- The CHASSIS_STATE_DB slice the fabric reconciler reads: the keys returned
by `chassisdb.keys("CHASSIS_STATE_DB", "CHASSIS_FABRIC_ASIC_TABLE*")` and each
key's `name` field. -/
structure ChassisStateDB where
  keysList : List String
  nameOf : String → Option String

/-- Source `get_asic_list_from_db`: the trailing ASIC id of every key whose `name`
field equals the module name, in key order; `none` models the crash when a
matching key has no trailing number. -/
def get_asic_list_from_db (cdb : ChassisStateDB) (name : String) :
    Option (List Nat) :=
  go cdb.keysList
where
  go : List String → Option (List Nat)
    | [] => some []
    | k :: rest =>
        if cdb.nameOf k = some name then
          match trailingNumber k with
          | none => none
          | some id => (go rest).map (fun l => id :: l)
        else go rest

/-- An external `systemctl` invocation issued by the reconciler. -/
inductive SysCmd where
  | stop (asic : Nat) : SysCmd
  | start (asic : Nat) : SysCmd
  | resetFailed (asic : Nat) : SysCmd
  deriving DecidableEq, Repr

/-- Observable effects of one `fabric_module_set_admin_status` call:
`systemctl` commands in order, CHASSIS_FABRIC_ASIC_TABLE keys deleted, and
whether the call aborted because the stop-verification found the service
still active. -/
structure FabricEffects where
  cmds : List SysCmd
  deletedKeys : List String
  abortedStillActive : Bool
  deriving DecidableEq, Repr

/-- Source `fabric_module_set_admin_status`.  `isActiveExit` is the oracle for
`subprocess.call(["systemctl", "is-active", "--quiet", ...])` (0 = active);
the source checks it once, on the loop variable left over from the stop loop,
i.e. the last ASIC in the list. -/
def fabric_module_set_admin_status (cdb : ChassisStateDB)
    (isActiveExit : Nat → Int) (name state : String) : Option FabricEffects :=
  match get_asic_list_from_db cdb name with
  | none => none
  | some asic_list =>
      if asic_list.length = 0 then some ⟨[], [], false⟩
      else if state = "down" then
        let stops := asic_list.map SysCmd.stop
        if isActiveExit (asic_list.getLast?.getD 0) = 0 then
          some ⟨stops, [], true⟩
        else
          some ⟨stops ++
                  (asic_list.map
                    (fun a => [SysCmd.resetFailed a, SysCmd.start a])).flatten,
                asic_list.map
                  (fun a => "CHASSIS_FABRIC_ASIC_TABLE|asic" ++ toString a),
                false⟩
      else if state = "up" then
        some ⟨asic_list.map SysCmd.start, [], false⟩
      else some ⟨[], [], false⟩

/-! ### Concrete instances

Small closed environments, stores and state-database slices used to
evaluate the guard on explicit inputs. -/

/-- A smartswitch environment: the clock reads 1000, the ISO parser accepts
exactly the string "T0" (as instant 0) and renders every instant as "TS". -/
def envSS : Env :=
  ⟨true, 1000, (fun s => if s = "T0" then some 0 else none), fun _ => "TS"⟩

/-- A non-smartswitch environment whose parser rejects everything. -/
def envStd : Env := ⟨false, 0, (fun _ => none), fun _ => "TS"⟩

/-- DPU0 is up with a live (unparseable-timestamp, hence never timed out)
transition in progress. -/
def storeInProgress : Store := fun n =>
  if n = "DPU0" then
    [("admin_status", "up"), ("state_transition_in_progress", "True"),
     ("transition_start_time", "BAD")]
  else []

/-- DPU0 is up with a stale transition: its start instant 0 is 1000 seconds
before `envSS.now`, past the 240-second budget. -/
def storeStale : Store := fun n =>
  if n = "DPU0" then
    [("admin_status", "up"), ("state_transition_in_progress", "True"),
     ("transition_start_time", "T0")]
  else []

/-- LINE-CARD0 is already down. -/
def storeDown : Store := fun n =>
  if n = "LINE-CARD0" then [("admin_status", "down")] else []

/-- DPU0 is already up. -/
def storeUp : Store := fun n =>
  if n = "DPU0" then [("admin_status", "up")] else []

/-- DPU0 has a non-empty record with no `admin_status` field. -/
def storeNoAdmin : Store := fun n =>
  if n = "DPU0" then [("state_transition_in_progress", "False")] else []

/-- ROUTER7 (an unrecognized module-name tag) is down. -/
def storeRouter : Store := fun n =>
  if n = "ROUTER7" then [("admin_status", "down")] else []

/-- The table holds no records at all. -/
def emptyStore : Store := fun _ => []

/-- At every poll instant the record reads up. -/
def storesAllUp : Nat → Store := fun _ _ => [("admin_status", "up")]

/-- Two fabric-ASIC rows, both bound to FABRIC-CARD0. -/
def cdbTwoAsics : ChassisStateDB :=
  ⟨["CHASSIS_FABRIC_ASIC_TABLE|asic0", "CHASSIS_FABRIC_ASIC_TABLE|asic1"],
   fun _ => some "FABRIC-CARD0"⟩

/-- One fabric-ASIC row bound to FABRIC-CARD0 whose key has no trailing
number. -/
def cdbBadKey : ChassisStateDB :=
  ⟨["CHASSIS_FABRIC_ASIC_TABLE|asicX"], fun _ => some "FABRIC-CARD0"⟩

/-! ### Dictionary lemmas -/

theorem dget_dset_self (d : Dict) (k v : String) :
    dget (dset d k v) k = some v := by
  induction d with
  | nil => simp [dget, dset]
  | cons p t ih =>
      by_cases h : p.1 = k
      · simp [dset, h, dget]
      · simp [dset, h, dget, ih]

theorem dget_dset_ne (d : Dict) (k v k' : String) (h : k' ≠ k) :
    dget (dset d k v) k' = dget d k' := by
  induction d with
  | nil => simp [dget, dset, Ne.symm h]
  | cons p t ih =>
      by_cases hp : p.1 = k
      · simp [dset, hp, dget, Ne.symm h]
      · simp [dset, hp, dget, ih]

theorem dget_dpop_self (d : Dict) (k : String) :
    dget (dpop d k) k = none := by
  induction d with
  | nil => simp [dget, dpop]
  | cons p t ih =>
      by_cases h : p.1 = k
      · simpa [dpop, h] using ih
      · simp [dpop, h, dget, ih]

theorem dget_dpop_ne (d : Dict) (k k' : String) (h : k' ≠ k) :
    dget (dpop d k) k' = dget d k' := by
  induction d with
  | nil => simp [dget, dpop]
  | cons p t ih =>
      by_cases hp : p.1 = k
      · have hpk' : ¬ p.1 = k' := by rw [hp]; exact Ne.symm h
        simp [dpop, hp, dget, hpk', Ne.symm h, ih]
      · simp [dpop, hp, dget, ih]

/-! ### The transition-field pairing invariant (spec invariant I1 / P4) -/

/-- Pairing invariant on a written record: `transition_start_time` is present
iff `state_transition_in_progress` is the string `'True'`. -/
def pairingInv (d : Dict) : Prop :=
  (dget d "transition_start_time").isSome = true ↔
    dget d "state_transition_in_progress" = some "True"

theorem pairingInv_after_set_true (d : Dict) (iso : String) :
    pairingInv
      (dset (dset d "state_transition_in_progress" "True")
        "transition_start_time" iso) := by
  unfold pairingInv
  rw [dget_dset_self,
      dget_dset_ne _ _ _ _ (by decide :
        ("state_transition_in_progress" : String) ≠ "transition_start_time"),
      dget_dset_self]
  simp

theorem pairingInv_after_clear (d : Dict) (value : String) (hv : value ≠ "True") :
    pairingInv
      (dpop (dset d "state_transition_in_progress" value)
        "transition_start_time") := by
  unfold pairingInv
  rw [dget_dpop_self,
      dget_dpop_ne _ _ _ (by decide :
        ("state_transition_in_progress" : String) ≠ "transition_start_time"),
      dget_dset_self]
  simp [hv]

theorem pairingInv_set_stip (env : Env) (store : Store) (name value : String) :
    pairingInv (set_state_transition_in_progress env store name value) := by
  unfold set_state_transition_in_progress
  by_cases hv : value = "True"
  · subst hv
    rw [if_pos rfl]
    exact pairingInv_after_set_true _ _
  · rw [if_neg hv]
    exact pairingInv_after_clear _ _ hv

theorem pairingInv_transitionWriteEntry (env : Env) (target : String) :
    pairingInv (transitionWriteEntry env target) := by
  unfold pairingInv
  constructor
  · intro _; rfl
  · intro _; rfl

/-! ### Reduction lemmas for the guard commands -/

theorem sgw_inProgress (env : Env) (store : Store) (name target : String)
    (hip : get_state_transition_in_progress store name = "True")
    (hto : is_transition_timed_out env store name = false) :
    smartswitchGuardWrites env store name target = ⟨.inProgress, []⟩ := by
  unfold smartswitchGuardWrites
  rw [if_pos hip, if_neg (by simp [hto])]

theorem sgw_reclaim (env : Env) (store : Store) (name target : String)
    (hip : get_state_transition_in_progress store name = "True")
    (hto : is_transition_timed_out env store name = true) :
    smartswitchGuardWrites env store name target =
      ⟨.proceeded true,
       [(name, set_state_transition_in_progress env store name "False"),
        (name, transitionWriteEntry env target)]⟩ := by
  unfold smartswitchGuardWrites
  rw [if_pos hip, if_pos hto]

theorem sgw_fresh (env : Env) (store : Store) (name target : String)
    (hip : get_state_transition_in_progress store name ≠ "True") :
    smartswitchGuardWrites env store name target =
      ⟨.proceeded false, [(name, transitionWriteEntry env target)]⟩ := by
  unfold smartswitchGuardWrites
  rw [if_neg hip]

theorem shutdown_eq_guard (env : Env) (store : Store) (name cur : String)
    (hpre : validModuleNameTag name = true)
    (hcur : get_config_module_state env store name = some cur)
    (hne : cur ≠ "down") (hsw : env.is_smartswitch = true) :
    shutdown_chassis_module env store name =
      smartswitchGuardWrites env store name "down" := by
  unfold shutdown_chassis_module
  simp [hpre, hcur, hne, hsw]

theorem shutdown_eq_nonss (env : Env) (store : Store) (name cur : String)
    (hpre : validModuleNameTag name = true)
    (hcur : get_config_module_state env store name = some cur)
    (hne : cur ≠ "down") (hsw : env.is_smartswitch = false) :
    shutdown_chassis_module env store name =
      ⟨.proceeded false, [(name, [("admin_status", "down")])]⟩ := by
  unfold shutdown_chassis_module
  simp [hpre, hcur, hne, hsw]

theorem startup_eq_guard (env : Env) (store : Store) (name cur : String)
    (hcur : get_config_module_state env store name = some cur)
    (hne : cur ≠ "up") (hsw : env.is_smartswitch = true) :
    startup_chassis_module env store name =
      smartswitchGuardWrites env store name "up" := by
  unfold startup_chassis_module
  simp [hcur, hne, hsw]

theorem startup_eq_nonss (env : Env) (store : Store) (name cur : String)
    (hcur : get_config_module_state env store name = some cur)
    (hne : cur ≠ "up") (hsw : env.is_smartswitch = false) :
    startup_chassis_module env store name =
      ⟨.proceeded false, [(name, [])]⟩ := by
  unfold startup_chassis_module
  simp [hcur, hne, hsw]

/-! ### Claim theorems -/

/-- C1: on a smartswitch, while a module's record says a transition is in
progress and it has not timed out, a shutdown or startup request whose target
differs from the current admin state reports that a transition is already in
progress and performs no store writes; the module's record is exactly the
same after the call as before. -/
theorem transition_in_progress_blocks
    (env : Env) (store : Store) (name cur : String)
    (hsw : env.is_smartswitch = true)
    (hpre : validModuleNameTag name = true)
    (hip : get_state_transition_in_progress store name = "True")
    (hto : is_transition_timed_out env store name = false)
    (hcur : get_config_module_state env store name = some cur) :
    (cur ≠ "down" →
      shutdown_chassis_module env store name = ⟨.inProgress, []⟩ ∧
      applyWrites (shutdown_chassis_module env store name).writes store name
        = store name) ∧
    (cur ≠ "up" →
      startup_chassis_module env store name = ⟨.inProgress, []⟩ ∧
      applyWrites (startup_chassis_module env store name).writes store name
        = store name) := by
  constructor
  · intro hne
    have hs : shutdown_chassis_module env store name = ⟨.inProgress, []⟩ := by
      rw [shutdown_eq_guard env store name cur hpre hcur hne hsw]
      exact sgw_inProgress env store name "down" hip hto
    exact ⟨hs, by rw [hs]; rfl⟩
  · intro hne
    have hs : startup_chassis_module env store name = ⟨.inProgress, []⟩ := by
      rw [startup_eq_guard env store name cur hcur hne hsw]
      exact sgw_inProgress env store name "up" hip hto
    exact ⟨hs, by rw [hs]; rfl⟩

/-- Witness for C1: DPU0, up, transition in progress, not timed out —
shutdown is rejected with no writes. -/
theorem transition_in_progress_blocks_witness :
    shutdown_chassis_module envSS storeInProgress "DPU0" = ⟨.inProgress, []⟩ :=
  ((transition_in_progress_blocks envSS storeInProgress "DPU0" "up"
      rfl (by decide) (by decide) (by decide) (by decide)).1
    (by decide)).1

/-- C2: on a smartswitch, when the in-progress flag is set but the transition
has timed out, a shutdown or startup request whose target differs from the
current admin state first clears the stale flag (a write whose record drops
`transition_start_time` and carries `state_transition_in_progress = 'False'`),
then replaces the record with
`{admin_status: target, state_transition_in_progress: 'True',
transition_start_time: now}` with a fresh timestamp, and proceeds. -/
theorem stale_transition_reclaimed
    (env : Env) (store : Store) (name cur : String)
    (hsw : env.is_smartswitch = true)
    (hpre : validModuleNameTag name = true)
    (hip : get_state_transition_in_progress store name = "True")
    (hto : is_transition_timed_out env store name = true)
    (hcur : get_config_module_state env store name = some cur) :
    (cur ≠ "down" →
      shutdown_chassis_module env store name =
        ⟨.proceeded true,
         [(name, set_state_transition_in_progress env store name "False"),
          (name, transitionWriteEntry env "down")]⟩ ∧
      applyWrites (shutdown_chassis_module env store name).writes store name
        = transitionWriteEntry env "down") ∧
    (cur ≠ "up" →
      startup_chassis_module env store name =
        ⟨.proceeded true,
         [(name, set_state_transition_in_progress env store name "False"),
          (name, transitionWriteEntry env "up")]⟩ ∧
      applyWrites (startup_chassis_module env store name).writes store name
        = transitionWriteEntry env "up") ∧
    dget (set_state_transition_in_progress env store name "False")
        "transition_start_time" = none ∧
    dget (set_state_transition_in_progress env store name "False")
        "state_transition_in_progress" = some "False" ∧
    (∀ target : String,
      dget (transitionWriteEntry env target) "transition_start_time"
        = some (env.isoformat env.now)) := by
  refine ⟨?_, ?_, ?_, ?_, fun _ => rfl⟩
  · intro hne
    have hs := (shutdown_eq_guard env store name cur hpre hcur hne hsw).trans
      (sgw_reclaim env store name "down" hip hto)
    refine ⟨hs, ?_⟩
    rw [hs]
    simp [applyWrites, set_entry]
  · intro hne
    have hs := (startup_eq_guard env store name cur hcur hne hsw).trans
      (sgw_reclaim env store name "up" hip hto)
    refine ⟨hs, ?_⟩
    rw [hs]
    simp [applyWrites, set_entry]
  · unfold set_state_transition_in_progress
    rw [if_neg (by decide : ¬ ("False" : String) = "True"), dget_dpop_self]
  · unfold set_state_transition_in_progress
    rw [if_neg (by decide : ¬ ("False" : String) = "True"),
        dget_dpop_ne _ _ _ (by decide :
          ("state_transition_in_progress" : String) ≠ "transition_start_time"),
        dget_dset_self]

/-- Witness for C2: DPU0, up, transition in progress and started 1000 seconds
ago — shutdown clears the stale flag and rewrites the record. -/
theorem stale_transition_reclaimed_witness :
    shutdown_chassis_module envSS storeStale "DPU0" =
      ⟨.proceeded true,
       [("DPU0", set_state_transition_in_progress envSS storeStale "DPU0" "False"),
        ("DPU0", transitionWriteEntry envSS "down")]⟩ :=
  ((stale_transition_reclaimed envSS storeStale "DPU0" "up"
      rfl (by decide) (by decide) (by decide) (by decide)).1
    (by decide)).1

/-- C3: on any platform, a shutdown when the current admin state is already
down, or a startup when it is already up, reports already-in-target-state and
performs no store writes. -/
theorem already_in_target_state_no_writes
    (env : Env) (store : Store) (name : String) :
    (validModuleNameTag name = true →
      get_config_module_state env store name = some "down" →
      shutdown_chassis_module env store name = ⟨.alreadyInState, []⟩ ∧
      applyWrites (shutdown_chassis_module env store name).writes store name
        = store name) ∧
    (get_config_module_state env store name = some "up" →
      startup_chassis_module env store name = ⟨.alreadyInState, []⟩ ∧
      applyWrites (startup_chassis_module env store name).writes store name
        = store name) := by
  constructor
  · intro hpre hcur
    have hs : shutdown_chassis_module env store name = ⟨.alreadyInState, []⟩ := by
      unfold shutdown_chassis_module
      simp [hpre, hcur]
    exact ⟨hs, by rw [hs]; rfl⟩
  · intro hcur
    have hs : startup_chassis_module env store name = ⟨.alreadyInState, []⟩ := by
      unfold startup_chassis_module
      simp [hcur]
    exact ⟨hs, by rw [hs]; rfl⟩

/-- Witness for C3: shutting down LINE-CARD0 while it is already down is a
no-op report. -/
theorem already_in_target_state_no_writes_witness :
    shutdown_chassis_module envStd storeDown "LINE-CARD0" =
      ⟨.alreadyInState, []⟩ :=
  ((already_in_target_state_no_writes envStd storeDown "LINE-CARD0").1
    (by decide) (by decide)).1

/-- Every record `shutdown_chassis_module` writes is the stale-flag clear, the
smartswitch transition entry, the plain non-smartswitch `admin_status` record,
with the platform recorded. -/
theorem shutdown_write_forms (env : Env) (store : Store) (name : String) :
    ∀ w ∈ (shutdown_chassis_module env store name).writes,
      (env.is_smartswitch = true ∧
        (w.2 = set_state_transition_in_progress env store name "False" ∨
         w.2 = transitionWriteEntry env "down")) ∨
      (env.is_smartswitch = false ∧ w.2 = [("admin_status", "down")]) := by
  intro w hw
  by_cases hv : validModuleNameTag name
  · cases hget : get_config_module_state env store name with
    | none => simp [shutdown_chassis_module, hv, hget] at hw
    | some cur =>
        by_cases hcur : cur = "down"
        · rw [shutdown_chassis_module] at hw
          simp [hv, hget, hcur] at hw
        · cases hsw : env.is_smartswitch with
          | false =>
              rw [shutdown_eq_nonss env store name cur hv hget hcur hsw] at hw
              simp at hw
              right
              exact ⟨rfl, by rw [hw]⟩
          | true =>
              rw [shutdown_eq_guard env store name cur hv hget hcur hsw] at hw
              by_cases hip : get_state_transition_in_progress store name = "True"
              · by_cases hto : is_transition_timed_out env store name = true
                · rw [sgw_reclaim env store name "down" hip hto] at hw
                  simp at hw
                  rcases hw with hw | hw
                  · exact Or.inl ⟨rfl, Or.inl (by rw [hw])⟩
                  · exact Or.inl ⟨rfl, Or.inr (by rw [hw])⟩
                · rw [sgw_inProgress env store name "down" hip
                      (by simpa using hto)] at hw
                  simp at hw
              · rw [sgw_fresh env store name "down" hip] at hw
                simp at hw
                exact Or.inl ⟨rfl, Or.inr (by rw [hw])⟩
  · rw [shutdown_chassis_module] at hw
    simp [hv] at hw

/-- Every record `startup_chassis_module` writes is the stale-flag clear, the
smartswitch transition entry, or the non-smartswitch record deletion, with
the platform recorded. -/
theorem startup_write_forms (env : Env) (store : Store) (name : String) :
    ∀ w ∈ (startup_chassis_module env store name).writes,
      (env.is_smartswitch = true ∧
        (w.2 = set_state_transition_in_progress env store name "False" ∨
         w.2 = transitionWriteEntry env "up")) ∨
      (env.is_smartswitch = false ∧ w.2 = []) := by
  intro w hw
  cases hget : get_config_module_state env store name with
  | none => simp [startup_chassis_module, hget] at hw
  | some cur =>
      by_cases hcur : cur = "up"
      · rw [startup_chassis_module] at hw
        simp [hget, hcur] at hw
      · cases hsw : env.is_smartswitch with
        | false =>
            rw [startup_eq_nonss env store name cur hget hcur hsw] at hw
            simp at hw
            right
            exact ⟨rfl, by rw [hw]⟩
        | true =>
            rw [startup_eq_guard env store name cur hget hcur hsw] at hw
            by_cases hip : get_state_transition_in_progress store name = "True"
            · by_cases hto : is_transition_timed_out env store name = true
              · rw [sgw_reclaim env store name "up" hip hto] at hw
                simp at hw
                rcases hw with hw | hw
                · exact Or.inl ⟨rfl, Or.inl (by rw [hw])⟩
                · exact Or.inl ⟨rfl, Or.inr (by rw [hw])⟩
              · rw [sgw_inProgress env store name "up" hip
                    (by simpa using hto)] at hw
                simp at hw
            · rw [sgw_fresh env store name "up" hip] at hw
              simp at hw
              exact Or.inl ⟨rfl, Or.inr (by rw [hw])⟩

/-- C4: every record the transition guard writes — by shutdown, by startup, or
by `set_state_transition_in_progress` itself — satisfies the pairing
invariant: `transition_start_time` is present iff
`state_transition_in_progress` is `'True'`; and on a non-smartswitch platform
no written record carries either field. -/
theorem guard_writes_pairing_and_platform
    (env : Env) (store : Store) (name value : String) :
    pairingInv (set_state_transition_in_progress env store name value) ∧
    (∀ w ∈ (shutdown_chassis_module env store name).writes, pairingInv w.2) ∧
    (∀ w ∈ (startup_chassis_module env store name).writes, pairingInv w.2) ∧
    (env.is_smartswitch = false →
      ∀ w ∈ (shutdown_chassis_module env store name).writes ++
            (startup_chassis_module env store name).writes,
        dget w.2 "transition_start_time" = none ∧
        dget w.2 "state_transition_in_progress" = none) := by
  refine ⟨pairingInv_set_stip env store name value, ?_, ?_, ?_⟩
  · intro w hw
    rcases shutdown_write_forms env store name w hw with
      ⟨_, hf | hf⟩ | ⟨_, hf⟩
    · rw [hf]; exact pairingInv_set_stip env store name "False"
    · rw [hf]; exact pairingInv_transitionWriteEntry env "down"
    · rw [hf]; unfold pairingInv; decide
  · intro w hw
    rcases startup_write_forms env store name w hw with
      ⟨_, hf | hf⟩ | ⟨_, hf⟩
    · rw [hf]; exact pairingInv_set_stip env store name "False"
    · rw [hf]; exact pairingInv_transitionWriteEntry env "up"
    · rw [hf]; unfold pairingInv; decide
  · intro hsw w hw
    rcases List.mem_append.mp hw with hmem | hmem
    · rcases shutdown_write_forms env store name w hmem with
        ⟨hsw', _⟩ | ⟨_, hf⟩
      · rw [hsw] at hsw'; cases hsw'
      · rw [hf]; exact ⟨rfl, rfl⟩
    · rcases startup_write_forms env store name w hmem with
        ⟨hsw', _⟩ | ⟨_, hf⟩
      · rw [hsw] at hsw'; cases hsw'
      · rw [hf]; exact ⟨rfl, rfl⟩

/-- Witness for C4: the record written when clearing the stale DPU0 flag
satisfies the pairing invariant. -/
theorem guard_writes_pairing_and_platform_witness :
    pairingInv
      (set_state_transition_in_progress envSS storeStale "DPU0" "False") :=
  (guard_writes_pairing_and_platform envSS storeStale "DPU0" "False").1

/-- Counterexample to C6 as stated: `startup` on the non-conforming name
ROUTER7 does not fail validation — on a non-smartswitch store holding ROUTER7
as down, it proceeds and performs a store write. -/
theorem startup_name_validation_cx :
    validModuleNameTag "ROUTER7" = false ∧
    (startup_chassis_module envStd storeRouter "ROUTER7").result ≠
      CmdResult.badName ∧
    (startup_chassis_module envStd storeRouter "ROUTER7").writes ≠ [] := by
  decide

/-- C6 (amended): only the shutdown command validates the module-name tag — on
a name with an unrecognized tag it fails with a validation error and performs
no store writes, whatever the store holds; the startup command performs no
such validation and never reports a validation failure. -/
theorem shutdown_only_validates_name
    (env : Env) (store : Store) (name : String)
    (hbad : validModuleNameTag name = false) :
    shutdown_chassis_module env store name = ⟨.badName, []⟩ ∧
    (startup_chassis_module env store name).result ≠ CmdResult.badName := by
  constructor
  · unfold shutdown_chassis_module
    rw [if_pos (by simp [hbad])]
  · unfold startup_chassis_module
    cases hget : get_config_module_state env store name with
    | none => simp
    | some cur =>
        by_cases hcur : cur = "up"
        · simp [hcur]
        · by_cases hsw : env.is_smartswitch
          · simp only [if_neg hcur, if_pos hsw]
            unfold smartswitchGuardWrites
            by_cases hip : get_state_transition_in_progress store name = "True"
            · by_cases hto : is_transition_timed_out env store name = true
              · rw [if_pos hip, if_pos hto]; simp
              · rw [if_pos hip, if_neg (by simpa using hto)]; simp
            · rw [if_neg hip]; simp
          · simp [hcur, hsw]

/-- Witness for C6 (amended): shutdown on ROUTER7 is rejected by validation
with no writes. -/
theorem shutdown_only_validates_name_witness :
    shutdown_chassis_module envStd storeRouter "ROUTER7" = ⟨.badName, []⟩ :=
  (shutdown_only_validates_name envStd storeRouter "ROUTER7" (by decide)).1

/-- Counterexample to C7 as stated: on a store whose DPU0 record is non-empty
but lacks `admin_status`, `get_config_module_state` does not return a value —
the source raises `KeyError` on `fvs['admin_status']`. -/
theorem get_config_module_state_cx :
    storeNoAdmin "DPU0" ≠ [] ∧
    get_config_module_state envSS storeNoAdmin "DPU0" = none := by
  decide

/-- C7 (amended): `get_config_module_state` reads only — when the module's
record is absent it returns the platform default, `'down'` on a smartswitch
and `'up'` otherwise; when the record carries `admin_status` it returns that
field; it fails (raises `KeyError`, modelled as `none`) exactly when a
non-empty record lacks `admin_status`. -/
theorem get_config_module_state_total_cases
    (env : Env) (store : Store) (name : String) :
    (store name = [] →
      get_config_module_state env store name =
        some (if env.is_smartswitch then "down" else "up")) ∧
    (∀ v, dget (store name) "admin_status" = some v →
      get_config_module_state env store name = some v) ∧
    (store name ≠ [] → dget (store name) "admin_status" = none →
      get_config_module_state env store name = none) := by
  refine ⟨?_, ?_, ?_⟩
  · intro h
    unfold get_config_module_state
    rw [h]
    rfl
  · intro v hv
    cases hrec : store name with
    | nil => rw [hrec] at hv; cases hv
    | cons p t =>
        unfold get_config_module_state
        rw [hrec] at hv ⊢
        simpa [List.isEmpty] using hv
  · intro hne hnone
    cases hrec : store name with
    | nil => exact absurd hrec hne
    | cons p t =>
        unfold get_config_module_state
        rw [hrec] at hnone ⊢
        simpa [List.isEmpty] using hnone

/-- Witness for C7 (amended): with no record at all, a smartswitch reads DPU1
as down. -/
theorem get_config_module_state_total_cases_witness :
    get_config_module_state envSS emptyStore "DPU1" = some "down" :=
  (get_config_module_state_total_cases envSS emptyStore "DPU1").1 rfl

/-- C8: provided the ISO parser rejects the empty string (as
`datetime.fromisoformat` does), `is_transition_timed_out` is true exactly when
the module's record carries a `transition_start_time` that parses to some
instant more than `TRANSITION_TIMEOUT` (4 minutes) before now; an absent
record, an absent field, or an unparseable timestamp all yield false, and the
function never fails. -/
theorem is_transition_timed_out_iff
    (env : Env) (store : Store) (name : String)
    (hempty : env.fromisoformat "" = none) :
    is_transition_timed_out env store name = true ↔
      ∃ s t, dget (store name) "transition_start_time" = some s ∧
        env.fromisoformat s = some t ∧
        env.now - t > TRANSITION_TIMEOUT := by
  unfold is_transition_timed_out
  cases hrec : store name with
  | nil => simp [dget]
  | cons p l =>
      simp only [List.isEmpty_cons, Bool.false_eq_true, if_false]
      cases hts : dget (p :: l) "transition_start_time" with
      | none => simp
      | some s =>
          by_cases hs : s = ""
          · subst hs
            simp [hempty]
          · simp only [if_neg hs]
            cases hp : env.fromisoformat s with
            | none => simp [hp]
            | some t => simp [hp, decide_eq_true_iff]

/-- Witness for C8: DPU0's stale record (start instant 0, now 1000) is
reported timed out. -/
theorem is_transition_timed_out_iff_witness :
    is_transition_timed_out envSS storeStale "DPU0" = true :=
  (is_transition_timed_out_iff envSS storeStale "DPU0" rfl).mpr
    ⟨"T0", 0, by decide, by decide, by decide⟩

/-- When every observation in the fuel window is a defined mismatch, the poll
loop times out. -/
theorem pollFrom_timedOut (obs : Nat → Option String) (state : String) :
    ∀ fuel i,
      (∀ k, i ≤ k → k ≤ i + fuel → ∃ v, obs k = some v ∧ v ≠ state) →
      pollFrom obs state i fuel = PollResult.timedOut := by
  intro fuel
  induction fuel with
  | zero =>
      intro i h
      obtain ⟨v, hv, hne⟩ := h i le_rfl (by omega)
      unfold pollFrom
      rw [hv]
      simp [hne]
  | succ f ih =>
      intro i h
      obtain ⟨v, hv, hne⟩ := h i le_rfl (by omega)
      unfold pollFrom
      rw [hv]
      simp only [if_neg hne]
      exact ih (i + 1) (fun k hk1 hk2 => h k (by omega) (by omega))

/-- The poll loop returns not-timed-out at the first matching observation. -/
theorem pollFrom_matched (obs : Nat → Option String) (state : String) :
    ∀ fuel i k, i ≤ k → k ≤ i + fuel →
      obs k = some state →
      (∀ j, i ≤ j → j < k → ∃ v, obs j = some v ∧ v ≠ state) →
      pollFrom obs state i fuel = PollResult.matched k := by
  intro fuel
  induction fuel with
  | zero =>
      intro i k hik hki hk _
      have : k = i := by omega
      subst this
      unfold pollFrom
      rw [hk]
      simp
  | succ f ih =>
      intro i k hik hki hk hmis
      by_cases hke : k = i
      · subst hke
        unfold pollFrom
        rw [hk]
        simp
      · obtain ⟨v, hv, hne⟩ := hmis i le_rfl (by omega)
        unfold pollFrom
        rw [hv]
        simp only [if_neg hne]
        exact ih (i + 1) k (by omega) (by omega) hk
          (fun j hj1 hj2 => hmis j (by omega) hj2)

/-- A match can only be reported inside the fuel window. -/
theorem pollFrom_matched_le (obs : Nat → Option String) (state : String) :
    ∀ fuel i m, pollFrom obs state i fuel = PollResult.matched m →
      m ≤ i + fuel := by
  intro fuel
  induction fuel with
  | zero =>
      intro i m h
      unfold pollFrom at h
      cases hv : obs i with
      | none => rw [hv] at h; cases h
      | some s =>
          rw [hv] at h
          have h' : (if s = state then PollResult.matched i
              else PollResult.timedOut) = PollResult.matched m := h
          by_cases hs : s = state
          · rw [if_pos hs] at h'
            cases h'
            omega
          · rw [if_neg hs] at h'
            cases h'
  | succ f ih =>
      intro i m h
      unfold pollFrom at h
      cases hv : obs i with
      | none => rw [hv] at h; cases h
      | some s =>
          rw [hv] at h
          have h' : (if s = state then PollResult.matched i
              else pollFrom obs state (i + 1) f) = PollResult.matched m := h
          by_cases hs : s = state
          · rw [if_pos hs] at h'
            cases h'
            omega
          · rw [if_neg hs] at h'
            have := ih (i + 1) m h'
            omega

/-- C9: `check_config_module_state_with_timeout` polls the module's admin
state once per second over the evolving store; it reports not-timed-out
(`matched k`, after `k` sleeps) as soon as an observation equals the expected
state, reports a fatal timeout after `TIMEOUT_SECS` consecutive defined
mismatches — in which case the caller's fabric reconciliation is not run —
and a match always lands within `TIMEOUT_SECS` read iterations. -/
theorem poll_loop_spec (env : Env) (stores : Nat → Store)
    (name state : String) :
    ((∀ k, k < TIMEOUT_SECS →
        ∃ v, get_config_module_state env (stores k) name = some v ∧
          v ≠ state) →
      check_config_module_state_with_timeout env stores name state =
        PollResult.timedOut ∧
      fabricGateRuns
        (check_config_module_state_with_timeout env stores name state) =
          false) ∧
    (∀ k, k < TIMEOUT_SECS →
      get_config_module_state env (stores k) name = some state →
      (∀ j, j < k →
        ∃ v, get_config_module_state env (stores j) name = some v ∧
          v ≠ state) →
      check_config_module_state_with_timeout env stores name state =
        PollResult.matched k) ∧
    (∀ m, check_config_module_state_with_timeout env stores name state =
        PollResult.matched m → m < TIMEOUT_SECS) := by
  have hT : TIMEOUT_SECS = 10 := rfl
  refine ⟨?_, ?_, ?_⟩
  · intro h
    rw [hT] at h
    have ht : check_config_module_state_with_timeout env stores name state =
        PollResult.timedOut := by
      unfold check_config_module_state_with_timeout
      rw [hT]
      exact pollFrom_timedOut _ state (10 - 1) 0
        (fun k hk1 hk2 => h k (by omega))
    exact ⟨ht, by rw [ht]; rfl⟩
  · intro k hk hmatch hmis
    rw [hT] at hk
    unfold check_config_module_state_with_timeout
    rw [hT]
    exact pollFrom_matched _ state (10 - 1) 0 k (by omega)
      (by omega) hmatch (fun j hj1 hj2 => hmis j hj2)
  · intro m hm
    unfold check_config_module_state_with_timeout at hm
    rw [hT] at hm ⊢
    have := pollFrom_matched_le
      (fun k => get_config_module_state env (stores k) name) state
      (10 - 1) 0 m hm
    omega

/-- Witness for C9: a store that always reads up never matches down, so the
poll times out and the fabric gate stays closed. -/
theorem poll_loop_spec_witness :
    check_config_module_state_with_timeout envSS storesAllUp
        "FABRIC-CARD0" "down" = PollResult.timedOut ∧
    fabricGateRuns
      (check_config_module_state_with_timeout envSS storesAllUp
        "FABRIC-CARD0" "down") = false :=
  (poll_loop_spec envSS storesAllUp "FABRIC-CARD0" "down").1
    (fun k _ => ⟨"up", rfl, by decide⟩)

/-- When every matching key carries a trailing number, the ASIC scan succeeds
with exactly the matching keys' numbers, in key order. -/
theorem asic_scan_go_total (cdb : ChassisStateDB) (name : String) :
    ∀ ls : List String,
      (∀ k ∈ ls, cdb.nameOf k = some name →
        (trailingNumber k).isSome = true) →
      get_asic_list_from_db.go cdb name ls =
        some ((ls.filter
            (fun k => decide (cdb.nameOf k = some name))).filterMap
          trailingNumber) := by
  intro ls
  induction ls with
  | nil => intro _; rfl
  | cons k rest ih =>
      intro h
      by_cases hm : cdb.nameOf k = some name
      · obtain ⟨id, hid⟩ := Option.isSome_iff_exists.mp
          (h k (List.mem_cons_self k rest) hm)
        have hrest := ih (fun j hj => h j (List.mem_cons_of_mem k hj))
        unfold get_asic_list_from_db.go
        rw [if_pos hm, hid, hrest]
        simp [List.filter_cons, hm, List.filterMap_cons, hid]
      · have hrest := ih (fun j hj => h j (List.mem_cons_of_mem k hj))
        unfold get_asic_list_from_db.go
        rw [if_neg hm, hrest]
        simp [List.filter_cons, hm]

/-- A matching key without a trailing number makes the whole scan fail. -/
theorem asic_scan_go_fails (cdb : ChassisStateDB) (name : String) :
    ∀ (ls : List String) (k : String), k ∈ ls →
      cdb.nameOf k = some name → trailingNumber k = none →
      get_asic_list_from_db.go cdb name ls = none := by
  intro ls
  induction ls with
  | nil => intro k hk; cases hk
  | cons a rest ih =>
      intro k hk hm hnone
      rcases List.mem_cons.mp hk with hka | hkr
      · subst hka
        unfold get_asic_list_from_db.go
        rw [if_pos hm, hnone]
      · by_cases hma : cdb.nameOf a = some name
        · unfold get_asic_list_from_db.go
          rw [if_pos hma]
          cases hta : trailingNumber a with
          | none => rfl
          | some id => rw [ih k hkr hm hnone]; rfl
        · unfold get_asic_list_from_db.go
          rw [if_neg hma]
          exact ih k hkr hm hnone

/-- C10: `get_asic_list_from_db` returns the trailing integers of exactly the
CHASSIS_FABRIC_ASIC_TABLE keys whose stored name field equals the module, in
key order, whenever every such matching key ends in a digit run; if any
matching key has no trailing digits the scan fails (the trailing-number
extraction has no match) instead of returning a list. -/
theorem get_asic_list_spec (cdb : ChassisStateDB) (name : String) :
    ((∀ k ∈ cdb.keysList, cdb.nameOf k = some name →
        (trailingNumber k).isSome = true) →
      get_asic_list_from_db cdb name =
        some ((cdb.keysList.filter
            (fun k => decide (cdb.nameOf k = some name))).filterMap
          trailingNumber)) ∧
    (∀ badkey ∈ cdb.keysList, cdb.nameOf badkey = some name →
      trailingNumber badkey = none →
      get_asic_list_from_db cdb name = none) := by
  constructor
  · intro h
    exact asic_scan_go_total cdb name cdb.keysList h
  · intro badkey hmem hm hnone
    exact asic_scan_go_fails cdb name cdb.keysList badkey hmem hm hnone

/-- Witness for C10: the two-row table scans to the ASIC ids 0 and 1, and the
bad-key table's scan fails. -/
theorem get_asic_list_spec_witness :
    get_asic_list_from_db cdbTwoAsics "FABRIC-CARD0" = some [0, 1] ∧
    get_asic_list_from_db cdbBadKey "FABRIC-CARD0" = none := by
  constructor
  · have h := (get_asic_list_spec cdbTwoAsics "FABRIC-CARD0").1 (by decide)
    rw [h]
    rfl
  · exact (get_asic_list_spec cdbBadKey "FABRIC-CARD0").2
      "CHASSIS_FABRIC_ASIC_TABLE|asicX" (by decide) (by decide) (by decide)

/-- C5: a `down` reconciliation on a module with a non-empty ASIC binding
whose post-stop liveness check reports the service still active aborts: it
issues the stop commands only, deletes no CHASSIS_FABRIC_ASIC_TABLE row, and
issues no start or reset-failed command for any ASIC. -/
theorem fabric_down_abort_destroys_nothing (cdb : ChassisStateDB)
    (isActiveExit : Nat → Int) (name : String) (asics : List Nat)
    (hscan : get_asic_list_from_db cdb name = some asics)
    (hne : asics ≠ [])
    (hact : isActiveExit (asics.getLast?.getD 0) = 0) :
    fabric_module_set_admin_status cdb isActiveExit name "down" =
      some ⟨asics.map SysCmd.stop, [], true⟩ ∧
    (∀ a : Nat, SysCmd.start a ∉ asics.map SysCmd.stop ∧
      SysCmd.resetFailed a ∉ asics.map SysCmd.stop) := by
  constructor
  · unfold fabric_module_set_admin_status
    simp only [hscan]
    rw [if_neg (by simp [List.length_eq_zero, hne])]
    simp [hact]
  · intro a
    constructor
    · intro hmem
      obtain ⟨x, _, hx⟩ := List.mem_map.mp hmem
      exact SysCmd.noConfusion hx
    · intro hmem
      obtain ⟨x, _, hx⟩ := List.mem_map.mp hmem
      exact SysCmd.noConfusion hx

/-- Witness for C5: both FABRIC-CARD0 ASICs are stopped, the liveness check
says still active, and nothing further happens. -/
theorem fabric_down_abort_destroys_nothing_witness :
    fabric_module_set_admin_status cdbTwoAsics (fun _ => 0)
        "FABRIC-CARD0" "down" =
      some ⟨List.map SysCmd.stop [0, 1], [], true⟩ :=
  (fabric_down_abort_destroys_nothing cdbTwoAsics (fun _ => 0)
      "FABRIC-CARD0" [0, 1] (by decide) (by decide) rfl).1

end ChassisModules
